import Mathlib

/-!
Verification of the `TrainModels` orchestration class (src/train_model.py).

The script is a thin orchestration of external ML libraries (sklearn, keras).
We embed the orchestration logic itself faithfully; library calls whose
internals are explicitly out of scope (TF-IDF solvers, SGD fitting, keras
training, cross-validation scoring) appear as parameter functions bundled in
an `SkLib` record, so every theorem quantifies over what the libraries may
return while the glue logic is fixed by the source.
-/

namespace TwitterProject

/-- A row of the input data frame: a `text` column and a `gender` label. -/
structure Row where
  text : String
  gender : String
deriving DecidableEq, Repr

/-- A `stop_words` setting for `TfidfVectorizer`: Python `None` or a named
list such as `'english'`. -/
abbrev StopWords := Option String

/-- Feature matrices as produced by vectorizers: rows of rationals. -/
abbrev Mat := List (List ℚ)

/-- Label vectors (e.g. `self.train.gender`). -/
abbrev Labels := List String

/-- An sklearn classifier object.  `kind` is the class (`"SGDClassifier"` or
`"Perceptron"`); `fitted` is the training data the object was last fit on
(`none` for a freshly-constructed, untrained instance).  `clf.fit(X, y)`
mutates the object in place, which we model by replacing `fitted`. -/
structure Classifier where
  kind : String
  fitted : Option (Mat × Labels)
deriving DecidableEq, Repr

/-- The external library functions the script delegates to.  Their internals
are out of scope (spec section 1), so they are opaque parameters here:
* `tfidf stop fitTexts ts` — `TfidfVectorizer(stop_words=stop)` fit on
  `fitTexts`, transforming `ts`;
* `predictFn kind X y M` — predictions of a `kind` classifier fit on
  `(X, y)`, applied to matrix `M`;
* `cvScore kind stop ts ys` — `GridSearchCV`'s internal cross-validated
  accuracy of the pipeline `TfidfVectorizer(stop_words=stop) → classifier`
  on training texts/labels (grid search clones the estimator, so the passed
  classifier object is not mutated);
* `kerasTrain cfg X Y` — an opaque handle to the keras network of
  architecture `cfg` trained on `(X, Y)`;
* `kerasEval net X Y` — `model.evaluate`'s reported accuracy;
* `tokenizerMatrix cap fitTexts ts` — `Tokenizer(num_words=cap)` fit on
  `fitTexts`, `texts_to_matrix(ts, mode='count')`. -/
structure NNConfig where
  layers : List (ℕ × String × Option ℕ)
  loss : String
  optimizer : String
  epochs : ℕ
deriving DecidableEq, Repr

structure SkLib where
  tfidf : StopWords → List String → List String → Mat
  predictFn : String → Mat → Labels → Mat → Labels
  cvScore : String → StopWords → List String → Labels → ℚ
  kerasTrain : NNConfig → Mat → Mat → ℕ
  kerasEval : ℕ → Mat → Mat → ℚ
  tokenizerMatrix : ℕ → List String → List String → Mat

/-- `sklearn.metrics.accuracy_score`: the fraction of positions where the
prediction equals the true label. -/
def accuracy_score (y_true y_pred : Labels) : ℚ :=
  (((y_true.zip y_pred).countP (fun p => p.1 == p.2) : ℕ) : ℚ) / (y_true.length : ℚ)

/-- The loop of Python's `max(l, key=itemgetter(1))`: fold keeping the
current best, replacing it only on a strictly greater key, so the first
maximal element wins ties. -/
def pymax1 {α : Type} (q : α × ℚ) : List (α × ℚ) → α × ℚ
  | [] => q
  | p :: l => pymax1 (if p.2 > q.2 then p else q) l

/-- Python's `max(l, key=itemgetter(1))`; `none` models the `ValueError`
raised on an empty sequence. -/
def pymax {α : Type} : List (α × ℚ) → Option (α × ℚ)
  | [] => none
  | p :: l => some (pymax1 p l)

/-- A parameter mapping such as `GridSearchCV.best_params_`, restricted to
the one hyperparameter the script tunes: an association list in insertion
order from parameter name to stop-word setting. -/
abbrev Params := List (String × StopWords)

/-- Python `dict.get(k)`: the first binding of `k`, and `None` when the key
is absent.  (Absence and a stored `None` are indistinguishable, exactly as
in Python, since the stored values are themselves `Option`s.) -/
def Params.get (ps : Params) (k : String) : StopWords :=
  match ps.find? (fun p => p.1 == k) with
  | some p => p.2
  | none => none

/-- `ceil(0.2 * n)`: the number of test rows chosen by
`train_test_split(df, test_size=0.2)` (the library rounds the test fraction
up to a whole number of rows). -/
def testRowCount (n : ℕ) : ℕ := (n + 4) / 5

/-- Modelled from the library contract of
`sklearn.model_selection.train_test_split(df, test_size=0.2)`: the rows are
shuffled (the permutation is drawn from the library RNG, so the shuffled
order is a parameter here) and the first `ceil(0.2*n)` shuffled rows become
the test partition, the rest the train partition.  Returns
`(train, test)`. -/
def trainTestSplit (shuffled : List Row) : List Row × List Row :=
  (shuffled.drop (testRowCount shuffled.length),
   shuffled.take (testRowCount shuffled.length))

/-- The state of a `TrainModels` instance: the fields assigned in
`__init__` plus the two fields (`tokenizer`, `lb_make`) that start as
`None` and are filled in by `build_matrix`. -/
structure TM where
  df : List Row
  train : List Row
  test : List Row
  clfs : List (String × Classifier)
  X_train : Mat
  X_test : Mat
  Y_train : Labels
  Y_test : Labels
  tokenizer : Option (ℕ × List String)
  lb_make : Option (List String)

/-- `__tf_idf_feature_extraction`: a default `TfidfVectorizer()`
(`stop_words=None`) is fit on the train texts and transforms both
partitions. -/
def tf_idf_feature_extraction (lib : SkLib) (train test : List Row) : Mat × Mat :=
  (lib.tfidf none (train.map Row.text) (train.map Row.text),
   lib.tfidf none (train.map Row.text) (test.map Row.text))

/-- `TrainModels.__init__`: split the data frame, build the registry
`{"SVM": SGDClassifier(), "Perceptron": Perceptron()}` (insertion order),
extract TF-IDF features, store the label columns; `tokenizer` and
`lb_make` start as `None`. -/
def TrainModels.make (lib : SkLib) (df shuffled : List Row) : TM :=
  let tt := trainTestSplit shuffled
  let xs := tf_idf_feature_extraction lib tt.1 tt.2
  { df := df
    train := tt.1
    test := tt.2
    clfs := [("SVM", ⟨"SGDClassifier", none⟩), ("Perceptron", ⟨"Perceptron", none⟩)]
    X_train := xs.1
    X_test := xs.2
    Y_train := tt.1.map Row.gender
    Y_test := tt.2.map Row.gender
    tokenizer := none
    lb_make := none }

/-- Python dict lookup `self.__clfs[name]`; `none` models the `KeyError`. -/
def getClf (clfs : List (String × Classifier)) (name : String) : Option Classifier :=
  (clfs.find? (fun p => p.1 == name)).map Prod.snd

/-- Writing a mutated classifier object back into the registry under its
name (in Python this happens by aliasing: the dict holds a reference to the
object that `fit` mutates in place). -/
def setClf : List (String × Classifier) → String → Classifier → List (String × Classifier)
  | [], _, _ => []
  | p :: l, n, c => if p.1 == n then (n, c) :: l else p :: setClf l n c

/-- `TrainModels.__benchmark(clf)` applied to the registry entry `e` (as in
the `train_models` loop): `clf.fit(self.X_train, self.Y_train)` mutates the
registry's object in place, then `clf.predict(self.X_test)` is scored
against `self.Y_test`.  Returns the updated state and the accuracy. -/
def benchmarkEntry (lib : SkLib) (s : TM) (e : String × Classifier) : TM × ℚ :=
  let fitted : Classifier := { e.2 with fitted := some (s.X_train, s.Y_train) }
  let pred := lib.predictFn fitted.kind s.X_train s.Y_train s.X_test
  ({ s with clfs := setClf s.clfs e.1 fitted }, accuracy_score s.Y_test pred)

/-- `TrainModels.__get_best_score(scores)`:
`max(scores.items(), key=operator.itemgetter(1))[0]`.  `none` models the
`ValueError` Python raises on an empty dict. -/
def get_best_score (scores : List (String × ℚ)) : Option String :=
  (pymax scores).map Prod.fst

/-- The grid `parameters = {'vect__stop_words': [None, 'english']}` of
`TrainModels.optimize`, expanded to its candidate parameter settings in
`GridSearchCV`'s order. -/
def paramGrid : List Params :=
  [[("vect__stop_words", none)], [("vect__stop_words", some "english")]]

/-- `TrainModels.optimize(best_func)`: grid search of the pipeline
`Pipeline([('vect', TfidfVectorizer()), ('clf', best_func)])` over
`paramGrid` with `scoring='accuracy'`, fit on `self.train.text` /
`self.train.gender`; returns `best_params_`, the first candidate attaining
the maximal cross-validated accuracy (ties broken by candidate order, as by
`GridSearchCV`'s rank argmin).  The estimator is cloned internally, so the
state is untouched. -/
def optimize (lib : SkLib) (s : TM) (best_func : Classifier) : Params :=
  let scored := paramGrid.map (fun ps =>
    (ps, lib.cvScore best_func.kind (ps.get "vect__stop_words")
      (s.train.map Row.text) (s.train.map Row.gender)))
  ((pymax scored).map Prod.fst).getD []

/-- `TrainModels.__run_best_model(best_params, best_clf)`: rebuild
`TfidfVectorizer(stop_words=best_params.get('vect__stop_words'))`, fit it
on the full training texts and transform both partitions, look up the
selected classifier in the registry (`none` models the `KeyError` on a bad
name), refit it in place on the training partition, predict on the test
partition, and return (state, (accuracy, fitted classifier)). -/
def run_best_model (lib : SkLib) (s : TM) (best_params : Params)
    (best_clf : String) : Option (TM × ℚ × Classifier) :=
  let stop := best_params.get "vect__stop_words"
  let trainMat := lib.tfidf stop (s.train.map Row.text) (s.train.map Row.text)
  let testMat := lib.tfidf stop (s.train.map Row.text) (s.test.map Row.text)
  (getClf s.clfs best_clf).map (fun clf =>
    let fitted : Classifier := { clf with fitted := some (trainMat, s.train.map Row.gender) }
    let pred := lib.predictFn fitted.kind trainMat (s.train.map Row.gender) testMat
    ({ s with clfs := setClf s.clfs best_clf fitted },
     (accuracy_score (s.test.map Row.gender) pred, fitted)))

/-- `keras.utils.to_categorical(n, k)`: the length-`k` one-hot vector with
a `1` at index `n`. -/
def to_categorical (n k : ℕ) : List ℚ :=
  (List.range k).map (fun i => if i = n then 1 else 0)

/-- `sklearn.preprocessing.LabelEncoder().fit(ys).classes_`: the sorted
distinct labels. -/
def labelClasses (ys : Labels) : List String :=
  ys.dedup.mergeSort (fun a b => a ≤ b)

/-- `LabelEncoder.transform` of one label: its index among the classes. -/
def labelIndex (classes : List String) (y : String) : ℕ :=
  classes.indexOf y

/-- `TrainModels.build_matrix`: fit a `LabelEncoder` on `self.Y_train` and
store it in `self.lb_make`; fit `Tokenizer(num_words=2000)` on the training
texts and store it in `self.tokenizer`; count-vectorize both text
partitions; integer-encode both label columns and one-hot them with
`to_categorical(·, 3)`.  Returns the updated state and
`(x_train, x_test, y_train, y_test)` matrices. -/
def build_matrix (lib : SkLib) (s : TM) : TM × (Mat × Mat × Mat × Mat) :=
  let classes := labelClasses s.Y_train
  let x_train := lib.tokenizerMatrix 2000 (s.train.map Row.text) (s.train.map Row.text)
  let x_test := lib.tokenizerMatrix 2000 (s.train.map Row.text) (s.test.map Row.text)
  let y_train := (s.Y_train.map (labelIndex classes)).map (fun n => to_categorical n 3)
  let y_test := (s.Y_test.map (labelIndex classes)).map (fun n => to_categorical n 3)
  ({ s with tokenizer := some (2000, s.train.map Row.text), lb_make := some classes },
   (x_train, x_test, y_train, y_test))

/-- The architecture and training configuration hard-coded in
`TrainModels.train_sequential`: `Dense(6, relu, input_dim=2000)`,
`Dense(6, relu)`, `Dense(3, sigmoid)`; compiled with
`loss='binary_crossentropy'`, `optimizer='adam'`; `fit(..., epochs=5)`. -/
def sequentialConfig : NNConfig :=
  { layers := [(6, "relu", some 2000), (6, "relu", none), (3, "sigmoid", none)]
    loss := "binary_crossentropy"
    optimizer := "adam"
    epochs := 5 }

/-- `TrainModels.train_sequential`: build the matrices, train the fixed
sequential network on `(x_train, y_train)` and evaluate it on
`(x_test, y_test)`.  Returns the updated state and (network handle,
accuracy `keras_score[1]`). -/
def train_sequential (lib : SkLib) (s : TM) : TM × ℕ × ℚ :=
  let bm := build_matrix lib s
  let net := lib.kerasTrain sequentialConfig bm.2.1 bm.2.2.2.1
  (bm.1, net, lib.kerasEval net bm.2.2.1 bm.2.2.2.2)

/-- The value returned by `train_models`: either a fitted classical
classifier or the keras network handle. -/
inductive Model where
  | classical (c : Classifier)
  | neural (net : ℕ)
deriving DecidableEq, Repr

/-- Whether a returned model is the classical (non-keras) one. -/
def Model.isClassical : Model → Bool
  | classical _ => true
  | neural _ => false

/-- The final branch of `train_models`:
`if keras_score >= simple_score: return keras_model else: return
simple_model`. -/
def selectFinal (keras_score simple_score : ℚ) (keras_model : ℕ)
    (simple_model : Classifier) : Model :=
  if keras_score ≥ simple_score then Model.neural keras_model
  else Model.classical simple_model

/-- The classical half of `train_models`: benchmark every registry entry in
insertion order (each `__benchmark` call fits the registry's object in
place), accumulating `scores` keyed by name. -/
def benchStep (lib : SkLib) (acc : TM × List (String × ℚ))
    (e : String × Classifier) : TM × List (String × ℚ) :=
  let r := benchmarkEntry lib acc.1 e
  (r.1, acc.2 ++ [(e.1, r.2)])

def benchAll (lib : SkLib) (s : TM) : TM × List (String × ℚ) :=
  s.clfs.foldl (benchStep lib) (s, [])

/-- `train_models` up to and including `__run_best_model`: benchmark both
classifiers, pick the best name, tune it with `optimize`, refit with
`__run_best_model`.  `none` models the uncaught exceptions (empty
registry / missing key). -/
def classicalStage (lib : SkLib) (s : TM) : Option (TM × ℚ × Classifier) :=
  let ba := benchAll lib s
  (get_best_score ba.2).bind (fun best =>
    (getClf ba.1.clfs best).bind (fun bestClf =>
      run_best_model lib ba.1 (optimize lib ba.1 bestClf) best))

/-- `TrainModels.train_models`: the classical stage, then
`train_sequential`, then the final `>=` comparison. -/
def train_models (lib : SkLib) (s : TM) : Option (TM × Model) :=
  (classicalStage lib s).map (fun r =>
    let ts := train_sequential lib r.1
    (ts.1, selectFinal ts.2.2 r.2.1 ts.2.1 r.2.2))

/-- A concrete instantiation of the external libraries, used to evaluate
the orchestration on explicit inputs: texts are featurized by length and a
classifier always predicts the first training label. -/
def trivLib : SkLib :=
  { tfidf := fun _ _ ts => ts.map (fun t => [(t.length : ℚ)])
    predictFn := fun _ _ y m => m.map (fun _ => y.headD "none")
    cvScore := fun _ _ _ _ => 0
    kerasTrain := fun _ _ _ => 0
    kerasEval := fun _ _ _ => 0
    tokenizerMatrix := fun _ _ ts => ts.map (fun t => [(t.length : ℚ)]) }

/-- A two-row data frame for concrete runs. -/
def dfEx : List Row := [⟨"aa", "male"⟩, ⟨"b", "female"⟩]

/-- The concrete `TrainModels` state built from `dfEx` with the identity
shuffle: the test partition is `[⟨"aa", "male"⟩]`, the train partition
`[⟨"b", "female"⟩]`. -/
def sEx : TM := TrainModels.make trivLib dfEx dfEx

theorem sEx_test : sEx.test = [⟨"aa", "male"⟩] := by decide

theorem sEx_train : sEx.train = [⟨"b", "female"⟩] := by decide

theorem pymax1_le {α : Type} (l : List (α × ℚ)) (q : α × ℚ) :
    q.2 ≤ (pymax1 q l).2 ∧ ∀ x ∈ l, x.2 ≤ (pymax1 q l).2 := by
  induction l generalizing q with
  | nil => exact ⟨le_refl _, by simp⟩
  | cons p l ih =>
    have h := ih (if p.2 > q.2 then p else q)
    have hq : q.2 ≤ (if p.2 > q.2 then p else q).2 := by
      split
      · exact le_of_lt (by assumption)
      · exact le_refl _
    have hp : p.2 ≤ (if p.2 > q.2 then p else q).2 := by
      split
      · exact le_refl _
      · exact le_of_not_lt (by assumption)
    refine ⟨le_trans hq h.1, ?_⟩
    intro x hx
    rcases List.mem_cons.mp hx with rfl | h2
    · exact le_trans hp h.1
    · exact h.2 x h2

theorem pymax1_first {α : Type} (l : List (α × ℚ)) (q : α × ℚ) :
    pymax1 q l = q ∨
    ∃ pre x suf, l = pre ++ x :: suf ∧ pymax1 q l = x ∧ q.2 < x.2 ∧
      ∀ y ∈ pre, y.2 < x.2 := by
  induction l generalizing q with
  | nil => exact Or.inl rfl
  | cons p l ih =>
    by_cases hpq : p.2 > q.2
    · have hstep : pymax1 q (p :: l) = pymax1 p l := by simp [pymax1, hpq]
      rcases ih p with h | ⟨pre, x, suf, hl, hr, hlt, hpre⟩
      · exact Or.inr ⟨[], p, l, rfl, by rw [hstep, h], hpq, by simp⟩
      · refine Or.inr ⟨p :: pre, x, suf, by simp [hl], by rw [hstep, hr],
          lt_trans hpq hlt, ?_⟩
        intro y hy
        rcases List.mem_cons.mp hy with h1 | h2
        · exact h1 ▸ hlt
        · exact hpre y h2
    · have hstep : pymax1 q (p :: l) = pymax1 q l := by simp [pymax1, hpq]
      rcases ih q with h | ⟨pre, x, suf, hl, hr, hlt, hpre⟩
      · exact Or.inl (by rw [hstep, h])
      · refine Or.inr ⟨p :: pre, x, suf, by simp [hl], by rw [hstep, hr], hlt, ?_⟩
        intro y hy
        rcases List.mem_cons.mp hy with h1 | h2
        · exact h1 ▸ lt_of_le_of_lt (le_of_not_lt hpq) hlt
        · exact hpre y h2

/-- C2: for every non-empty score mapping (an association list in insertion
order), `__get_best_score` returns the name of an entry whose score is
maximal and which is the first such entry in insertion order (every entry
strictly before it scores strictly less); the non-emptiness hypothesis is
the claim's precondition (on the empty dict Python's `max` raises, which
`get_best_score` models by `none`). -/
theorem C2_get_best_score_first_max (scores : List (String × ℚ))
    (h : scores ≠ []) :
    ∃ pre p suf, scores = pre ++ p :: suf ∧
      get_best_score scores = some p.1 ∧
      (∀ q ∈ scores, q.2 ≤ p.2) ∧
      (∀ q ∈ pre, q.2 < p.2) := by
  match scores, h with
  | p₀ :: rest, _ =>
    have hmax := pymax1_le rest p₀
    have hres : get_best_score (p₀ :: rest) = some (pymax1 p₀ rest).1 := rfl
    have hub : ∀ q ∈ p₀ :: rest, q.2 ≤ (pymax1 p₀ rest).2 := by
      intro q hq
      rcases List.mem_cons.mp hq with h1 | h2
      · exact h1 ▸ hmax.1
      · exact hmax.2 q h2
    rcases pymax1_first rest p₀ with heq | ⟨pre, x, suf, hl, hr, hlt, hpre⟩
    · refine ⟨[], p₀, rest, rfl, by rw [hres, heq], ?_, by simp⟩
      intro q hq
      have := hub q hq
      rwa [heq] at this
    · refine ⟨p₀ :: pre, x, suf, by simp [hl], by rw [hres, hr], ?_, ?_⟩
      · intro q hq
        have := hub q hq
        rwa [hr] at this
      · intro q hq
        rcases List.mem_cons.mp hq with h1 | h2
        · exact h1 ▸ hlt
        · exact hpre q h2

/-- Witness for C2 at the spec's example `{"SVM": 0.9, "Perceptron": 0.6}`. -/
theorem C2_witness :
    ∃ pre p suf,
      ([("SVM", (9 : ℚ)/10), ("Perceptron", (6 : ℚ)/10)] :
          List (String × ℚ)) = pre ++ p :: suf ∧
      get_best_score [("SVM", (9 : ℚ)/10), ("Perceptron", (6 : ℚ)/10)] = some p.1 ∧
      (∀ q ∈ ([("SVM", (9 : ℚ)/10), ("Perceptron", (6 : ℚ)/10)] :
          List (String × ℚ)), q.2 ≤ p.2) ∧
      (∀ q ∈ pre, q.2 < p.2) :=
  C2_get_best_score_first_max _ (by simp)

theorem testRowCount_le (n : ℕ) : testRowCount n ≤ n := by
  unfold testRowCount; omega

theorem testRowCount_bounds (n : ℕ) :
    n ≤ 5 * testRowCount n ∧ 5 * testRowCount n ≤ n + 4 := by
  unfold testRowCount; omega

theorem benchStep_train (lib : SkLib) (acc : TM × List (String × ℚ))
    (e : String × Classifier) :
    (benchStep lib acc e).1.train = acc.1.train ∧
    (benchStep lib acc e).1.test = acc.1.test := ⟨rfl, rfl⟩

theorem benchFold_partitions (lib : SkLib) (l : List (String × Classifier)) :
    ∀ acc : TM × List (String × ℚ),
      (l.foldl (benchStep lib) acc).1.train = acc.1.train ∧
      (l.foldl (benchStep lib) acc).1.test = acc.1.test := by
  induction l with
  | nil => exact fun acc => ⟨rfl, rfl⟩
  | cons e l ih => exact fun acc => ih (benchStep lib acc e)

theorem benchAll_partitions (lib : SkLib) (s : TM) :
    (benchAll lib s).1.train = s.train ∧ (benchAll lib s).1.test = s.test :=
  benchFold_partitions lib s.clfs (s, [])

theorem run_best_model_partitions (lib : SkLib) (s : TM) (ps : Params)
    (n : String) (r : TM × ℚ × Classifier) (h : run_best_model lib s ps n = some r) :
    r.1.train = s.train ∧ r.1.test = s.test := by
  simp only [run_best_model, Option.map_eq_some'] at h
  obtain ⟨c, _, rfl⟩ := h
  exact ⟨rfl, rfl⟩

theorem classicalStage_partitions (lib : SkLib) (s : TM) (r : TM × ℚ × Classifier)
    (h : classicalStage lib s = some r) :
    r.1.train = s.train ∧ r.1.test = s.test := by
  simp only [classicalStage, Option.bind_eq_some] at h
  obtain ⟨best, _, c, _, hr⟩ := h
  have h1 := run_best_model_partitions lib (benchAll lib s).1 _ best r hr
  have h2 := benchAll_partitions lib s
  exact ⟨h1.1.trans h2.1, h1.2.trans h2.2⟩

theorem build_matrix_partitions (lib : SkLib) (s : TM) :
    (build_matrix lib s).1.train = s.train ∧ (build_matrix lib s).1.test = s.test :=
  ⟨rfl, rfl⟩

theorem train_sequential_partitions (lib : SkLib) (s : TM) :
    (train_sequential lib s).1.train = s.train ∧
    (train_sequential lib s).1.test = s.test :=
  ⟨rfl, rfl⟩

theorem train_models_partitions (lib : SkLib) (s : TM) (r : TM × Model)
    (h : train_models lib s = some r) :
    r.1.train = s.train ∧ r.1.test = s.test := by
  simp only [train_models, Option.map_eq_some'] at h
  obtain ⟨cs, hcs, rfl⟩ := h
  have h1 := classicalStage_partitions lib s cs hcs
  have h2 := train_sequential_partitions lib cs.1
  exact ⟨h2.1.trans h1.1, h2.2.trans h1.2⟩

/-- C3: for a data frame whose rows are pairwise distinct, the train/test
split done in `__init__` produces disjoint partitions whose sizes sum to
the data-frame size, with the test partition holding `ceil(0.2*n)` rows —
within one row of exactly 20% — and every later operation of the class
leaves both partitions unchanged.  The hypothesis `hperm` says the shuffled
row order produced by the library RNG is a permutation of the data
frame. -/
theorem C3_split_partitions (lib : SkLib) (df shuffled : List Row)
    (hperm : shuffled.Perm df) (hnd : df.Nodup) :
    (TrainModels.make lib df shuffled).train.length +
      (TrainModels.make lib df shuffled).test.length = df.length ∧
    (TrainModels.make lib df shuffled).test.length = testRowCount df.length ∧
    |((TrainModels.make lib df shuffled).test.length : ℚ) - (df.length : ℚ) / 5| ≤ 1 ∧
    (TrainModels.make lib df shuffled).train.Disjoint
      (TrainModels.make lib df shuffled).test ∧
    (∀ (lib' : SkLib) (s : TM) e,
      (benchmarkEntry lib' s e).1.train = s.train ∧
      (benchmarkEntry lib' s e).1.test = s.test) ∧
    (∀ (lib' : SkLib) (s : TM) ps n r, run_best_model lib' s ps n = some r →
      r.1.train = s.train ∧ r.1.test = s.test) ∧
    (∀ (lib' : SkLib) (s : TM),
      (build_matrix lib' s).1.train = s.train ∧
      (build_matrix lib' s).1.test = s.test) ∧
    (∀ (lib' : SkLib) (s : TM) r, train_models lib' s = some r →
      r.1.train = s.train ∧ r.1.test = s.test) := by
  have hlen : shuffled.length = df.length := hperm.length_eq
  have hk : testRowCount df.length ≤ df.length := testRowCount_le df.length
  have htrain : (TrainModels.make lib df shuffled).train =
      shuffled.drop (testRowCount shuffled.length) := rfl
  have htest : (TrainModels.make lib df shuffled).test =
      shuffled.take (testRowCount shuffled.length) := rfl
  have htestlen : (TrainModels.make lib df shuffled).test.length =
      testRowCount df.length := by
    rw [htest, List.length_take, hlen]
    exact min_eq_left hk
  refine ⟨?_, htestlen, ?_, ?_, fun lib' s e => ⟨rfl, rfl⟩,
    run_best_model_partitions, fun lib' s => ⟨rfl, rfl⟩, train_models_partitions⟩
  · rw [htrain, htest, List.length_drop, List.length_take, hlen]
    omega
  · rw [htestlen]
    obtain ⟨hb1, hb2⟩ := testRowCount_bounds df.length
    have hb1 : (df.length : ℚ) ≤ 5 * (testRowCount df.length : ℚ) := by
      exact_mod_cast hb1
    have hb2 : 5 * (testRowCount df.length : ℚ) ≤ (df.length : ℚ) + 4 := by
      exact_mod_cast hb2
    rw [abs_le]
    constructor <;> linarith
  · rw [htrain, htest]
    have hnds : shuffled.Nodup := hperm.nodup_iff.mpr hnd
    exact (List.disjoint_take_drop hnds (le_refl _)).symm

/-- Witness for C3 on the concrete two-row frame `dfEx`. -/
theorem C3_witness :
    (TrainModels.make trivLib dfEx dfEx).train.length +
      (TrainModels.make trivLib dfEx dfEx).test.length = dfEx.length ∧
    (TrainModels.make trivLib dfEx dfEx).test.length = testRowCount dfEx.length ∧
    |((TrainModels.make trivLib dfEx dfEx).test.length : ℚ) - (dfEx.length : ℚ) / 5| ≤ 1 ∧
    (TrainModels.make trivLib dfEx dfEx).train.Disjoint
      (TrainModels.make trivLib dfEx dfEx).test ∧
    (∀ (lib' : SkLib) (s : TM) e,
      (benchmarkEntry lib' s e).1.train = s.train ∧
      (benchmarkEntry lib' s e).1.test = s.test) ∧
    (∀ (lib' : SkLib) (s : TM) ps n r, run_best_model lib' s ps n = some r →
      r.1.train = s.train ∧ r.1.test = s.test) ∧
    (∀ (lib' : SkLib) (s : TM),
      (build_matrix lib' s).1.train = s.train ∧
      (build_matrix lib' s).1.test = s.test) ∧
    (∀ (lib' : SkLib) (s : TM) r, train_models lib' s = some r →
      r.1.train = s.train ∧ r.1.test = s.test) :=
  C3_split_partitions trivLib dfEx dfEx (List.Perm.refl dfEx) (by decide)

theorem setClf_keys (l : List (String × Classifier)) (n : String) (c : Classifier) :
    (setClf l n c).map Prod.fst = l.map Prod.fst := by
  induction l with
  | nil => rfl
  | cons p l ih =>
    unfold setClf
    by_cases h : p.1 == n
    · simp only [h, if_pos, List.map_cons]
      rw [eq_of_beq h]
    · simp only [h, Bool.false_eq_true, if_neg, not_false_iff, List.map_cons, ih]

theorem getClf_setClf (l : List (String × Classifier)) (n : String) (c : Classifier)
    (h : (getClf l n).isSome) : getClf (setClf l n c) n = some c := by
  induction l with
  | nil => simp [getClf] at h
  | cons p l ih =>
    by_cases hp : p.1 == n
    · simp [getClf, setClf, hp, List.find?]
    · have h' : (getClf l n).isSome := by
        simpa [getClf, List.find?, hp] using h
      simpa [getClf, setClf, hp, List.find?] using ih h'

theorem run_best_model_keys (lib : SkLib) (s : TM) (ps : Params) (n : String)
    (r : TM × ℚ × Classifier) (h : run_best_model lib s ps n = some r) :
    r.1.clfs.map Prod.fst = s.clfs.map Prod.fst := by
  simp only [run_best_model, Option.map_eq_some'] at h
  obtain ⟨c, _, rfl⟩ := h
  exact setClf_keys _ _ _

/-- C4 counterexample: on the concrete state `sEx`, running the benchmark
step on the registry's `"SVM"` entry changes the registry — `clf.fit`
mutates the stored classifier object in place (its `fitted` state goes from
`none` to the training data), so the benchmark step does NOT leave the
registry's entries unchanged. -/
theorem C4_counterexample :
    (getClf sEx.clfs "SVM").map Classifier.fitted = some none ∧
    (getClf (benchmarkEntry trivLib sEx ("SVM", ⟨"SGDClassifier", none⟩)).1.clfs
        "SVM").map Classifier.fitted ≠ some none := by
  constructor
  · decide
  · intro h
    simp [benchmarkEntry, sEx, TrainModels.make, trainTestSplit, dfEx, testRowCount,
      tf_idf_feature_extraction, trivLib, getClf, setClf, List.find?] at h

/-- C4 amended: the registry's keys (the two model names, in insertion
order) are never changed by any operation, and `build_matrix` /
`train_sequential` leave the registry entirely unchanged; but the
classifier objects stored in the registry are refit in place both by the
benchmark step (which overwrites the named entry with the object fitted on
`(X_train, Y_train)`) and by the best-model refit step — not only by the
grid-search refitting step. -/
theorem C4_registry_mutation :
    (∀ (lib : SkLib) (s : TM) e,
      (benchmarkEntry lib s e).1.clfs.map Prod.fst = s.clfs.map Prod.fst) ∧
    (∀ (lib : SkLib) (s : TM) ps n r, run_best_model lib s ps n = some r →
      r.1.clfs.map Prod.fst = s.clfs.map Prod.fst) ∧
    (∀ (lib : SkLib) (s : TM), (build_matrix lib s).1.clfs = s.clfs) ∧
    (∀ (lib : SkLib) (s : TM), (train_sequential lib s).1.clfs = s.clfs) ∧
    (∀ (lib : SkLib) (s : TM) e, (getClf s.clfs e.1).isSome →
      getClf ((benchmarkEntry lib s e).1.clfs) e.1 =
        some { e.2 with fitted := some (s.X_train, s.Y_train) }) := by
  refine ⟨fun lib s e => setClf_keys _ _ _, run_best_model_keys,
    fun lib s => rfl, fun lib s => rfl, fun lib s e h => getClf_setClf _ _ _ h⟩

/-- Witness for C4 on the concrete state `sEx`. -/
theorem C4_witness :
    getClf ((benchmarkEntry trivLib sEx ("SVM", ⟨"SGDClassifier", none⟩)).1.clfs)
        "SVM" =
      some ⟨"SGDClassifier", some (sEx.X_train, sEx.Y_train)⟩ :=
  C4_registry_mutation.2.2.2.2 trivLib sEx ("SVM", ⟨"SGDClassifier", none⟩)
    (by decide)

/-- The state after the classical stage of `train_models` on `sEx`. -/
def sEx2 : TM :=
  { df := dfEx
    train := [⟨"b", "female"⟩]
    test := [⟨"aa", "male"⟩]
    clfs := [("SVM", ⟨"SGDClassifier", some ([[1]], ["female"])⟩),
             ("Perceptron", ⟨"Perceptron", some ([[1]], ["female"])⟩)]
    X_train := [[1]]
    X_test := [[2]]
    Y_train := ["female"]
    Y_test := ["male"]
    tokenizer := none
    lb_make := none }

/-- The refitted classifier the classical stage produces on `sEx`. -/
def smEx : Classifier := ⟨"SGDClassifier", some ([[1]], ["female"])⟩

theorem classicalStage_sEx : classicalStage trivLib sEx = some (sEx2, 0, smEx) := by
  have h1 : "b".length = 1 := by decide
  have h2 : "aa".length = 2 := by decide
  simp [h1, h2, classicalStage, benchAll, benchStep, benchmarkEntry, sEx, TrainModels.make,
    trainTestSplit, dfEx, tf_idf_feature_extraction, trivLib, testRowCount,
    accuracy_score, get_best_score, pymax, pymax1, getClf, optimize, paramGrid,
    Params.get, run_best_model, setClf, sEx2, smEx, List.find?]

/-- C1 amended: `train_models` compares the neural network's accuracy with
the tuned classical model's accuracy using `keras_score >= simple_score`
and returns whichever model scores strictly higher — but when the two
accuracies are exactly equal it returns the NEURAL model (not the
classical one, as the claim states). -/
theorem C1_final_selection (lib : SkLib) (s s2 : TM) (sc : ℚ) (sm : Classifier)
    (h : classicalStage lib s = some (s2, sc, sm)) :
    ((train_sequential lib s2).2.2 ≥ sc →
      train_models lib s = some ((train_sequential lib s2).1,
        Model.neural (train_sequential lib s2).2.1)) ∧
    (sc > (train_sequential lib s2).2.2 →
      train_models lib s = some ((train_sequential lib s2).1,
        Model.classical sm)) := by
  constructor
  · intro hge
    simp [train_models, h, selectFinal, if_pos hge]
  · intro hgt
    simp [train_models, h, selectFinal, if_neg (not_le.mpr hgt)]

/-- Witness for C1 at the concrete run on `sEx` (a tie: both accuracies
are `0`, and the neural model is returned). -/
theorem C1_witness :
    train_models trivLib sEx =
      some ((train_sequential trivLib sEx2).1,
        Model.neural (train_sequential trivLib sEx2).2.1) :=
  (C1_final_selection trivLib sEx sEx2 0 smEx classicalStage_sEx).1
    (by simp [train_sequential, build_matrix, trivLib])

/-- C1 counterexample: on the concrete state `sEx` the tuned classical
model's accuracy and the neural network's accuracy are both `0` — exactly
equal — yet `train_models` returns the neural model, not the classical one
as the claim states (the source comparison is
`if keras_score >= simple_score: return keras_model`). -/
theorem C1_counterexample :
    (classicalStage trivLib sEx).map (fun r => r.2.1) = some 0 ∧
    (classicalStage trivLib sEx).map
      (fun r => (train_sequential trivLib r.1).2.2) = some 0 ∧
    (train_models trivLib sEx).map (fun r => r.2.isClassical) = some false := by
  have hts : train_sequential trivLib sEx2 = ((build_matrix trivLib sEx2).1, 0, 0) := by
    simp [train_sequential, trivLib]
  refine ⟨?_, ?_, ?_⟩ <;>
    simp [classicalStage_sEx, train_models, hts, selectFinal, Model.isClassical]

/-- C5: when the selected name is in the registry, `__run_best_model`
succeeds and returns the pair (accuracy, fitted classifier) where: the
TF-IDF vectorizer is rebuilt with the optimizer's chosen stop-word setting
(`best_params.get('vect__stop_words')`) and fit on the full training
texts; the selected classifier is refit in place on the training partition
so transformed; the accuracy is computed on the held-out test partition;
and the partitions themselves are untouched. -/
theorem C5_run_best_model (lib : SkLib) (s : TM) (ps : Params) (name : String)
    (c : Classifier) (h : getClf s.clfs name = some c) :
    ∃ s' acc fitted,
      run_best_model lib s ps name = some (s', acc, fitted) ∧
      fitted.kind = c.kind ∧
      fitted.fitted = some
        (lib.tfidf (ps.get "vect__stop_words") (s.train.map Row.text)
          (s.train.map Row.text),
         s.train.map Row.gender) ∧
      acc = accuracy_score (s.test.map Row.gender)
        (lib.predictFn c.kind
          (lib.tfidf (ps.get "vect__stop_words") (s.train.map Row.text)
            (s.train.map Row.text))
          (s.train.map Row.gender)
          (lib.tfidf (ps.get "vect__stop_words") (s.train.map Row.text)
            (s.test.map Row.text))) ∧
      s'.clfs = setClf s.clfs name fitted ∧
      s'.train = s.train ∧ s'.test = s.test := by
  unfold run_best_model
  rw [h]
  exact ⟨_, _, _, rfl, rfl, rfl, rfl, rfl, rfl, rfl⟩

/-- Witness for C5 on the concrete state `sEx` with an empty parameter
mapping and the registry name `"SVM"`. -/
theorem C5_witness :
    ∃ s' acc fitted,
      run_best_model trivLib sEx [] "SVM" = some (s', acc, fitted) ∧
      fitted.kind = Classifier.kind ⟨"SGDClassifier", none⟩ ∧
      fitted.fitted = some
        (trivLib.tfidf (Params.get [] "vect__stop_words") (sEx.train.map Row.text)
          (sEx.train.map Row.text),
         sEx.train.map Row.gender) ∧
      acc = accuracy_score (sEx.test.map Row.gender)
        (trivLib.predictFn (Classifier.kind ⟨"SGDClassifier", none⟩)
          (trivLib.tfidf (Params.get [] "vect__stop_words") (sEx.train.map Row.text)
            (sEx.train.map Row.text))
          (sEx.train.map Row.gender)
          (trivLib.tfidf (Params.get [] "vect__stop_words") (sEx.train.map Row.text)
            (sEx.test.map Row.text))) ∧
      s'.clfs = setClf sEx.clfs "SVM" fitted ∧
      s'.train = sEx.train ∧ s'.test = sEx.test :=
  C5_run_best_model trivLib sEx [] "SVM" ⟨"SGDClassifier", none⟩ (by decide)

theorem accuracy_score_bounds (yt yp : Labels) (h : yt ≠ []) :
    0 ≤ accuracy_score yt yp ∧ accuracy_score yt yp ≤ 1 := by
  unfold accuracy_score
  have hlen : 0 < (yt.length : ℚ) := by
    have := List.length_pos.mpr h
    exact_mod_cast this
  constructor
  · positivity
  · rw [div_le_one hlen]
    have hc : (yt.zip yp).countP (fun p => p.1 == p.2) ≤ yt.length := by
      calc (yt.zip yp).countP (fun p => p.1 == p.2)
          ≤ (yt.zip yp).length := List.countP_le_length _
        _ ≤ yt.length := by rw [List.length_zip]; exact min_le_left _ _
    exact_mod_cast hc

/-- C8: for every classifier entry and every state whose test-label column
is non-empty, the accuracy reported by the benchmark step — the fraction
of exact matches between the predictions and the true test labels — lies
in `[0, 1]`, whatever labels the library's classifier predicts. -/
theorem C8_benchmark_accuracy_in_unit (lib : SkLib) (s : TM)
    (e : String × Classifier) (h : s.Y_test ≠ []) :
    0 ≤ (benchmarkEntry lib s e).2 ∧ (benchmarkEntry lib s e).2 ≤ 1 :=
  accuracy_score_bounds _ _ h

/-- Witness for C8 on the concrete state `sEx`. -/
theorem C8_witness :
    0 ≤ (benchmarkEntry trivLib sEx ("SVM", ⟨"SGDClassifier", none⟩)).2 ∧
    (benchmarkEntry trivLib sEx ("SVM", ⟨"SGDClassifier", none⟩)).2 ≤ 1 :=
  C8_benchmark_accuracy_in_unit trivLib sEx ("SVM", ⟨"SGDClassifier", none⟩)
    (by decide)

/-- Modelled from the spec: "decoding the one-hot vector" is recovering
the integer label from the vector, i.e. taking the index of its maximal
entry (numpy argmax — the first maximal index; nothing in src decodes, the
spec states the round-trip as a testable property of the encoding used in
`build_matrix`). -/
def onehot_decode (v : List ℚ) : ℕ :=
  ((pymax v.enum).map Prod.fst).getD 0

/-- C9: encoding any integer label in `{0, 1, 2}` as a 3-class one-hot
vector with `to_categorical` (as `build_matrix` does) and decoding the
vector back yields the original label. -/
theorem C9_onehot_roundtrip (l : ℕ) (h : l < 3) :
    onehot_decode (to_categorical l 3) = l := by
  interval_cases l <;>
    simp [onehot_decode, to_categorical, pymax, pymax1, List.enum, List.range,
      List.range.loop] <;> norm_num

/-- Witness for C9 at label `2`. -/
theorem C9_witness : onehot_decode (to_categorical 2 3) = 2 :=
  C9_onehot_roundtrip 2 (by decide)

/-- C10: if the parameter mapping handed to `__run_best_model` has no
binding for `'vect__stop_words'`, the step does not fail: `dict.get`
yields `None`, the TF-IDF vectorizer is silently rebuilt with no stop-word
filtering, and the run is exactly the one obtained with an explicit
`{'vect__stop_words': None}`; with a valid classifier name it returns a
result. -/
theorem C10_missing_stop_words_key (lib : SkLib) (s : TM) (ps : Params)
    (name : String) (c : Classifier)
    (hk : ps.find? (fun p => p.1 == "vect__stop_words") = none)
    (hc : getClf s.clfs name = some c) :
    run_best_model lib s ps name =
      run_best_model lib s [("vect__stop_words", (none : StopWords))] name ∧
    (run_best_model lib s ps name).isSome := by
  have hget : ps.get "vect__stop_words" = none := by
    simp [Params.get, hk]
  have hget2 : Params.get [("vect__stop_words", (none : StopWords))]
      "vect__stop_words" = none := rfl
  constructor
  · unfold run_best_model
    rw [hget, hget2]
  · unfold run_best_model
    rw [hget, hc]
    rfl

/-- Witness for C10 on `sEx` with a mapping that lacks the key. -/
theorem C10_witness :
    run_best_model trivLib sEx [("foo", some "english")] "SVM" =
      run_best_model trivLib sEx [("vect__stop_words", (none : StopWords))] "SVM" ∧
    (run_best_model trivLib sEx [("foo", some "english")] "SVM").isSome :=
  C10_missing_stop_words_key trivLib sEx [("foo", some "english")] "SVM"
    ⟨"SGDClassifier", none⟩ (by decide) (by decide)

/-- C7: `optimize` searches over exactly one hyperparameter — each grid
candidate binds only the key `'vect__stop_words'` — with exactly the two
candidate values `None` and `'english'`; and the returned parameter
combination is a member of that grid whose cross-validated accuracy (the
grid search's `scoring='accuracy'` metric, applied to the pipeline built
from a fresh `TfidfVectorizer` and the given classifier) is maximal over
the grid. -/
theorem C7_optimize_grid (lib : SkLib) (s : TM) (c : Classifier) :
    paramGrid.map (fun ps => ps.map Prod.fst) =
      [["vect__stop_words"], ["vect__stop_words"]] ∧
    paramGrid.map (fun ps => ps.get "vect__stop_words") =
      [none, some "english"] ∧
    optimize lib s c ∈ paramGrid ∧
    ∀ ps ∈ paramGrid,
      lib.cvScore c.kind (ps.get "vect__stop_words") (s.train.map Row.text)
          (s.train.map Row.gender) ≤
        lib.cvScore c.kind ((optimize lib s c).get "vect__stop_words")
          (s.train.map Row.text) (s.train.map Row.gender) := by
  have hg0 : Params.get [("vect__stop_words", (none : StopWords))]
      "vect__stop_words" = none := rfl
  have hg1 : Params.get [("vect__stop_words", some "english")]
      "vect__stop_words" = some "english" := rfl
  by_cases hb : lib.cvScore c.kind (some "english") (s.train.map Row.text)
      (s.train.map Row.gender) >
    lib.cvScore c.kind none (s.train.map Row.text) (s.train.map Row.gender)
  · have hopt : optimize lib s c = [("vect__stop_words", some "english")] := by
      simp [optimize, paramGrid, pymax, pymax1, Params.get, hb]
    refine ⟨rfl, rfl, by simp [hopt, paramGrid], ?_⟩
    intro ps hps
    rcases List.mem_cons.mp hps with rfl | hps
    · rw [hopt, hg0, hg1]
      exact le_of_lt hb
    · rcases List.mem_cons.mp hps with rfl | hps
      · rw [hopt]
      · simp at hps
  · have hopt : optimize lib s c = [("vect__stop_words", (none : StopWords))] := by
      simp [optimize, paramGrid, pymax, pymax1, Params.get, hb]
    refine ⟨rfl, rfl, by simp [hopt, paramGrid], ?_⟩
    intro ps hps
    rcases List.mem_cons.mp hps with rfl | hps
    · rw [hopt]
    · rcases List.mem_cons.mp hps with rfl | hps
      · rw [hopt, hg0, hg1]
        exact le_of_not_lt hb
      · simp at hps

/-- C6: the neural path's bag-of-words matrices are built by a tokenizer
with the fixed vocabulary cap `2000`, fit on the training texts only (the
same fit is used to transform the test texts); every one-hot label vector
has exactly 3 entries; and the network trained by `train_sequential` is
the fixed feed-forward configuration — two hidden `Dense(6, relu)` layers
followed by a `Dense(3, sigmoid)` output layer — compiled with binary
cross-entropy loss and the adaptive `adam` optimizer and fit for 5
epochs on the built training matrices. -/
theorem C6_neural_network_construction (lib : SkLib) (s : TM) :
    (build_matrix lib s).2.1 =
      lib.tokenizerMatrix 2000 (s.train.map Row.text) (s.train.map Row.text) ∧
    (build_matrix lib s).2.2.1 =
      lib.tokenizerMatrix 2000 (s.train.map Row.text) (s.test.map Row.text) ∧
    (∀ v ∈ (build_matrix lib s).2.2.2.1, v.length = 3) ∧
    (∀ v ∈ (build_matrix lib s).2.2.2.2, v.length = 3) ∧
    sequentialConfig.layers =
      [(6, "relu", some 2000), (6, "relu", none), (3, "sigmoid", none)] ∧
    sequentialConfig.loss = "binary_crossentropy" ∧
    sequentialConfig.optimizer = "adam" ∧
    sequentialConfig.epochs = 5 ∧
    (train_sequential lib s).2.1 =
      lib.kerasTrain sequentialConfig (build_matrix lib s).2.1
        (build_matrix lib s).2.2.2.1 ∧
    (train_sequential lib s).2.2 =
      lib.kerasEval (train_sequential lib s).2.1 (build_matrix lib s).2.2.1
        (build_matrix lib s).2.2.2.2 := by
  have honehot : ∀ (ys : Labels) (cl : List String),
      ∀ v ∈ (ys.map (labelIndex cl)).map (fun n => to_categorical n 3),
        v.length = 3 := by
    intro ys cl v hv
    rcases List.mem_map.mp hv with ⟨n, _, rfl⟩
    simp [to_categorical]
  exact ⟨rfl, rfl, honehot s.Y_train (labelClasses s.Y_train),
    honehot s.Y_test (labelClasses s.Y_train), rfl, rfl, rfl, rfl, rfl, rfl⟩

end TwitterProject
